import Mathlib

/-!
Verification development for the DOROTHEA event-selection city
(src/invisible_cities/cities/dorothea.py).

The file embeds the program shallowly in Lean:

* Numeric quantities (energies, times, amplitudes, the drift velocity) are
  rationals; event counters are naturals; the global event cap `nmax` is an
  integer (negative means "unbounded", as in the Python code).
* Python dictionaries become association lists `List (Nat × _)`;
  `dict.get(k, default)` becomes `lookupD`.
* The pieces of the repository that `dorothea.py` imports but whose sources
  are not available (`S12SelectorCity.select_event`, the peak-quantity
  computations, `City.max_events_reached`, the `load_pmaps` loader) are
  modelled from the specification; their doc comments say so explicitly.
* The event loop, the per-file main loop, the `run` summary and the
  `DOROTHEA` driver are translated directly from the source.
-/

namespace Dorothea

/-- A reconstructed signal peak: a sequence of (time, amplitude) samples,
as produced upstream.  Modelled from the spec: the Peak data model of the
PMap format (the peak classes themselves are external to dorothea.py). -/
structure Peak where
  samples : List (ℚ × ℚ)
deriving DecidableEq

/-- Modelled from the spec: peak energy, integrating the samples whose
amplitude is at or above the integration threshold; samples below the
threshold contribute zero. -/
def Peak.energy (p : Peak) (ethr : ℚ) : ℚ :=
  (p.samples.map (fun s => if ethr ≤ s.2 then s.2 else 0)).sum

/-- Modelled from the spec: peak height, the maximum sample amplitude
(zero for an empty peak). -/
def Peak.height (p : Peak) : ℚ :=
  (p.samples.map Prod.snd).foldr max 0

/-- Times of the samples with non-zero amplitude. -/
def Peak.nonzeroTimes (p : Peak) : List ℚ :=
  ((p.samples.filter (fun s => s.2 != 0)).map Prod.fst)

/-- Modelled from the spec: peak width, the time span of the non-zero
samples (zero when there are none). -/
def Peak.width (p : Peak) : ℚ :=
  match p.nonzeroTimes with
  | [] => 0
  | t :: ts => (ts.foldr max t) - (ts.foldr min t)

/-- Modelled from the spec: the start time of a peak, the time of its first
sample (zero for an empty peak). -/
def Peak.startTime (p : Peak) : ℚ :=
  ((p.samples.map Prod.fst).headD 0)

/-- Modelled from the spec: the reference time of a peak (the spec does not
pin which sample defines the S1 reference time; it is taken here to be the
peak's start time). -/
def Peak.time (p : Peak) : ℚ :=
  p.startTime

/-- Per-sensor integrated charges of one S2 peak (the S2Si entry for that
peak): sensor id paired with its integrated charge. -/
abbrev SiEntry := List (Nat × ℚ)

/-- Modelled from the spec: sensor multiplicity of an S2 peak, the number of
sensors with non-zero integrated charge. -/
def nsipm (si : SiEntry) : Nat :=
  (si.filter (fun s => s.2 != 0)).length

/-- Python's `dict.get(k, default)` on an association list. -/
def lookupD {α : Type} : List (Nat × α) → Nat → α → α
  | [], _, d => d
  | q :: qs, k, d => if q.1 = k then q.2 else lookupD qs k d

/-- The keys of an association list. -/
def keys {α : Type} (m : List (Nat × α)) : List Nat :=
  m.map Prod.fst

/-- Insert an entry into an association list sorted by key (ascending). -/
def insertById {α : Type} (p : Nat × α) : List (Nat × α) → List (Nat × α)
  | [] => [p]
  | q :: qs => if p.1 ≤ q.1 then p :: q :: qs else q :: insertById p qs

/-- Sort an association list by key ascending; used to make the
ordered-by-peak-id traversal of an event's peak map explicit. -/
def sortById {α : Type} : List (Nat × α) → List (Nat × α)
  | [] => []
  | p :: ps => insertById p (sortById ps)

/-- The selector configuration: the parameters of the
`S12SelectorCity.__init__` call in `Dorothea.__init__` (one acceptance-bound
bundle per peak class plus the drift velocity). -/
structure S12Params where
  drift_v     : ℚ
  S1_Nmin     : Nat
  S1_Nmax     : Nat
  S1_Emin     : ℚ
  S1_Emax     : ℚ
  S1_Lmin     : ℚ
  S1_Lmax     : ℚ
  S1_Hmin     : ℚ
  S1_Hmax     : ℚ
  S1_Ethr     : ℚ
  S2_Nmin     : Nat
  S2_Nmax     : Nat
  S2_Emin     : ℚ
  S2_Emax     : ℚ
  S2_Lmin     : ℚ
  S2_Lmax     : ℚ
  S2_Hmin     : ℚ
  S2_Hmax     : ℚ
  S2_NSIPMmin : Nat
  S2_NSIPMmax : Nat
  S2_Ethr     : ℚ
deriving DecidableEq

/-- `Dorothea.__init__` (dorothea.py lines 22-80): builds the selector
configuration, passing the configurable bounds through and fixing
`S1_Nmin = 1`, `S1_Nmax = 1` and `S2_Nmin = 1` unconditionally. -/
def dorotheaParams
    (drift_v : ℚ)
    (S1_Emin S1_Emax S1_Lmin S1_Lmax S1_Hmin S1_Hmax S1_Ethr : ℚ)
    (S2_Nmax : Nat)
    (S2_Emin S2_Emax S2_Lmin S2_Lmax S2_Hmin S2_Hmax : ℚ)
    (S2_NSIPMmin S2_NSIPMmax : Nat)
    (S2_Ethr : ℚ) : S12Params where
  drift_v     := drift_v
  S1_Nmin     := 1
  S1_Nmax     := 1
  S1_Emin     := S1_Emin
  S1_Emax     := S1_Emax
  S1_Lmin     := S1_Lmin
  S1_Lmax     := S1_Lmax
  S1_Hmin     := S1_Hmin
  S1_Hmax     := S1_Hmax
  S1_Ethr     := S1_Ethr
  S2_Nmin     := 1
  S2_Nmax     := S2_Nmax
  S2_Emin     := S2_Emin
  S2_Emax     := S2_Emax
  S2_Lmin     := S2_Lmin
  S2_Lmax     := S2_Lmax
  S2_Hmin     := S2_Hmin
  S2_Hmax     := S2_Hmax
  S2_NSIPMmin := S2_NSIPMmin
  S2_NSIPMmax := S2_NSIPMmax
  S2_Ethr     := S2_Ethr

/-- Modelled from the spec: the per-peak acceptance check for an S1 peak —
energy, width and height must each lie within their inclusive bounds
(the `S12SelectorCity` peak filter is not part of the given sources). -/
def s1_peak_pass (c : S12Params) (p : Peak) : Bool :=
  decide (c.S1_Emin ≤ p.energy c.S1_Ethr ∧ p.energy c.S1_Ethr ≤ c.S1_Emax ∧
          c.S1_Lmin ≤ p.width ∧ p.width ≤ c.S1_Lmax ∧
          c.S1_Hmin ≤ p.height ∧ p.height ≤ c.S1_Hmax)

/-- Modelled from the spec: the per-peak acceptance check for an S2 peak —
energy, width, height and sensor multiplicity must each lie within their
inclusive bounds. -/
def s2_peak_pass (c : S12Params) (p : Peak) (si : SiEntry) : Bool :=
  decide (c.S2_Emin ≤ p.energy c.S2_Ethr ∧ p.energy c.S2_Ethr ≤ c.S2_Emax ∧
          c.S2_Lmin ≤ p.width ∧ p.width ≤ c.S2_Lmax ∧
          c.S2_Hmin ≤ p.height ∧ p.height ≤ c.S2_Hmax ∧
          c.S2_NSIPMmin ≤ nsipm si ∧ nsipm si ≤ c.S2_NSIPMmax)

/-- Modelled from the spec: the ids of the S1 peaks that individually pass,
in ascending id order. -/
def s1_passing (c : S12Params) (S1 : List (Nat × Peak)) : List Nat :=
  ((sortById S1).filter (fun q => s1_peak_pass c q.2)).map Prod.fst

/-- Modelled from the spec: the ids of the S2 peaks that individually pass
(each peak checked against its own S2Si entry), in ascending id order. -/
def s2_passing (c : S12Params) (S2 : List (Nat × Peak))
    (Si : List (Nat × SiEntry)) : List Nat :=
  ((sortById S2).filter (fun q => s2_peak_pass c q.2 (lookupD Si q.1 []))).map Prod.fst

/-- Modelled from the spec: the S1 peak filter — the multiplicity bound is
checked on the raw peak map and is authoritative (short-circuit: when it
fails no peak is evaluated and no id passes). -/
def s1_filter (c : S12Params) (S1 : List (Nat × Peak)) : Bool × List Nat :=
  if c.S1_Nmin ≤ S1.length ∧ S1.length ≤ c.S1_Nmax then
    (true, s1_passing c S1)
  else (false, [])

/-- Modelled from the spec: the S2 peak filter, analogous to the S1 one. -/
def s2_filter (c : S12Params) (S2 : List (Nat × Peak))
    (Si : List (Nat × SiEntry)) : Bool × List Nat :=
  if c.S2_Nmin ≤ S2.length ∧ S2.length ≤ c.S2_Nmax then
    (true, s2_passing c S2 Si)
  else (false, [])

/-- The record an accepted event carries to the output sink: event number,
timestamp, the chosen S1 id, the kept S2 ids and one drift value per kept
S2 peak. -/
structure AcceptedEvent where
  evt_number : Nat
  evt_time   : ℚ
  s1_id      : Nat
  s2_ids     : List Nat
  drifts     : List ℚ
deriving DecidableEq

/-- Modelled from the spec: the EventReducer — requires exactly one passing
S1, rejects when no S2 passes, caps the kept S2 ids to `S2_Nmax` (ids are in
ascending order, so the lowest ids are kept) and computes one drift value
per kept S2 peak from the chosen S1 reference time, the S2 start time and
the drift velocity. -/
def reduce (c : S12Params) (S1 S2 : List (Nat × Peak)) :
    List Nat → List Nat → Option (Nat × List Nat × List ℚ)
  | [s1id], s2p =>
    if s2p.isEmpty then none
    else
      some (s1id, s2p.take c.S2_Nmax,
        (s2p.take c.S2_Nmax).map (fun pid =>
          ((lookupD S2 pid (Peak.mk [])).startTime -
           (lookupD S1 s1id (Peak.mk [])).time) * c.drift_v))
  | _, _ => none

/-- Modelled from the spec: `S12SelectorCity.select_event` (base_cities.py is
not part of the given sources) — run the S1 and S2 peak filters, reject the
event outright when either multiplicity check fails, then reduce; a total
function returning none for rejection. -/
def select_event (c : S12Params) (evt_number : Nat) (evt_time : ℚ)
    (S1 S2 : List (Nat × Peak)) (Si : List (Nat × SiEntry)) :
    Option AcceptedEvent :=
  if (s1_filter c S1).1 && (s2_filter c S2 Si).1 then
    match reduce c S1 S2 (s1_filter c S1).2 (s2_filter c S2 Si).2 with
    | some (s1id, kept, ds) => some ⟨evt_number, evt_time, s1id, kept, ds⟩
    | none => none
  else none

/-- Modelled from the spec: `City.max_events_reached` (base_cities.py is not
part of the given sources) — a negative cap means unbounded; otherwise the
cap is reached once the number of consumed events is at least `nmax`. -/
def max_events_reached (nmax : Int) (nevt_in : Nat) : Bool :=
  decide (0 ≤ nmax) && decide (nmax ≤ (nevt_in : Int))

/-- The data `load_pmaps` and
`get_event_numbers_and_timestamps_from_file_name` deliver for one input
file: the three per-event mappings and the file-order event index. -/
structure FileData where
  S1s    : List (Nat × List (Nat × Peak))
  S2s    : List (Nat × List (Nat × Peak))
  S2Sis  : List (Nat × List (Nat × SiEntry))
  events : List (Nat × ℚ)
deriving DecidableEq

/-- The body of one `_event_loop` iteration (dorothea.py lines 126-130): the
event's S1/S2/S2Si sub-maps are looked up with an empty map as default and
handed to the selector. -/
def event_step (c : S12Params) (m : FileData) (evt_number : Nat)
    (evt_time : ℚ) : Option AcceptedEvent :=
  select_event c evt_number evt_time
    (lookupD m.S1s evt_number [])
    (lookupD m.S2s evt_number [])
    (lookupD m.S2Sis evt_number [])

/-- `Dorothea._event_loop` (dorothea.py lines 121-142): consume the file's
event index in order, incrementing `nevt_in` per event and `nevt_out` per
accepted event, forwarding accepted records to the sink (collected here in
order), and stopping with the max-reached flag once the cap is hit (checked
after each event). -/
def event_loop (c : S12Params) (nmax : Int) (m : FileData) :
    List (Nat × ℚ) → Nat → Nat → Nat × Nat × Bool × List AcceptedEvent
  | [], nevt_in, nevt_out => (nevt_in, nevt_out, false, [])
  | (evt_number, evt_time) :: rest, nevt_in, nevt_out =>
    let evt := event_step c m evt_number evt_time
    let no' := if evt.isSome then nevt_out + 1 else nevt_out
    if max_events_reached nmax (nevt_in + 1) then
      (nevt_in + 1, no', true, evt.toList)
    else
      let r := event_loop c nmax m rest (nevt_in + 1) no'
      (r.1, r.2.1, r.2.2.1, evt.toList ++ r.2.2.2)

/-- The outcome of loading one input file, as `_main_loop` observes it:
either the PMap data, or one of the two exception classes the code catches
(ValueError, tb.exceptions.NoSuchNodeError — the recognized empty/missing
data conditions), or any other exception. -/
inductive LoadResult where
  | ok (d : FileData)
  | valueError
  | noSuchNodeError
  | otherError
deriving DecidableEq

/-- How a run can abort: a file load failed with an uncaught exception, or
the final ratio division hit a zero denominator. -/
inductive Err where
  | loadError
  | zeroDivisionError
deriving DecidableEq

/-- `Dorothea._main_loop` (dorothea.py lines 97-119): iterate the input
files; a load failing with ValueError or NoSuchNodeError is skipped and the
next file is processed; any other load failure propagates; otherwise the
file's events are consumed, and the file loop breaks once the cap is
reached. -/
def main_loop (c : S12Params) (nmax : Int) :
    List LoadResult → Nat → Nat → Except Err (Nat × Nat)
  | [], nevt_in, nevt_out => .ok (nevt_in, nevt_out)
  | f :: fs, nevt_in, nevt_out =>
    match f with
    | .valueError => main_loop c nmax fs nevt_in nevt_out
    | .noSuchNodeError => main_loop c nmax fs nevt_in nevt_out
    | .otherError => .error .loadError
    | .ok d =>
      let r := event_loop c nmax d d.events nevt_in nevt_out
      if r.2.2.1 then .ok (r.1, r.2.1)
      else main_loop c nmax fs r.1 r.2.1

/-- Python's true division, which raises ZeroDivisionError on a zero
denominator. -/
def pydiv (a b : ℚ) : Option ℚ :=
  if b = 0 then none else some (a / b)

/-- The final summary `Dorothea.run` prints: the counters and the out/in
quotient. -/
structure RunSummary where
  nevt_in   : Nat
  nevt_out  : Nat
  outOverIn : ℚ
deriving DecidableEq

/-- `Dorothea.run` (dorothea.py lines 82-95): run the main loop from
counters (0, 0) and print the summary, whose ratio field is computed as
`nevt_out / nevt_in` with no guard — a zero-event run raises
ZeroDivisionError at the summary and does not complete. -/
def run (c : S12Params) (nmax : Int) (files : List LoadResult) :
    Except Err RunSummary :=
  match main_loop c nmax files 0 0 with
  | .error e => .error e
  | .ok (ni, no) =>
    match pydiv (no : ℚ) (ni : ℚ) with
    | none => .error .zeroDivisionError
    | some r => .ok ⟨ni, no, r⟩

/-- The `DOROTHEA` driver (dorothea.py lines 144-187): run the city, then
print the timing summary whose time-per-event is `dt / nevt_in` with no
guard for `nevt_in == 0`. -/
def DOROTHEA (c : S12Params) (nmax : Int) (files : List LoadResult)
    (dt : ℚ) : Except Err (RunSummary × ℚ) :=
  match run c nmax files with
  | .error e => .error e
  | .ok s =>
    match pydiv dt (s.nevt_in : ℚ) with
    | none => .error .zeroDivisionError
    | some tpe => .ok (s, tpe)

/-- The number of events a file contributes to a run (a file that fails to
load contributes none). -/
def fileEvents : LoadResult → Nat
  | .ok d => d.events.length
  | _ => 0

/-- The total number of events available across a list of input files. -/
def totalEvents (files : List LoadResult) : Nat :=
  (files.map fileEvents).sum

/-- No file in the list fails with an unrecognized (fatal) load error. -/
def noFatal (files : List LoadResult) : Bool :=
  files.all (fun f => decide (f ≠ LoadResult.otherError))

/-- A concrete configuration built by the Dorothea constructor: drift
velocity 1, every energy/width/height bound [0, 100], one S2 peak kept at
most, sensor-count bound [1, 10], thresholds 0. -/
def cfgA : S12Params :=
  dorotheaParams 1 0 100 0 100 0 100 0 1 0 100 0 100 0 100 1 10 0

/-- A concrete S1 peak: one sample of amplitude 1 at time 0. -/
def pkS1 : Peak := ⟨[(0, 1)]⟩

/-- A concrete S2 peak: one sample of amplitude 2 at time 10. -/
def pkS2a : Peak := ⟨[(10, 2)]⟩

/-- A second concrete S2 peak: one sample of amplitude 3 at time 20. -/
def pkS2b : Peak := ⟨[(20, 3)]⟩

/-- A concrete S2Si entry: one sensor with charge 5. -/
def siA : SiEntry := [(3, 5)]

/-- A concrete one-event file whose event 1 has one passing S1 peak and one
passing S2 peak. -/
def fdA : FileData :=
  ⟨[(1, [(0, pkS1)])], [(1, [(0, pkS2a)])], [(1, [(0, siA)])], [(1, 2)]⟩

/-- Inserting into an association list adds one entry. -/
lemma length_insertById {α : Type} (p : Nat × α) (l : List (Nat × α)) :
    (insertById p l).length = l.length + 1 := by
  induction l with
  | nil => rfl
  | cons q qs ih =>
    by_cases h : p.1 ≤ q.1 <;> simp [insertById, h, ih]

/-- Sorting an association list by id preserves its length. -/
lemma length_sortById {α : Type} (l : List (Nat × α)) :
    (sortById l).length = l.length := by
  induction l with
  | nil => rfl
  | cons p ps ih => simp [sortById, length_insertById, ih]

/-- At most as many S2 ids pass the per-peak check as there are raw S2
peaks. -/
lemma s2_passing_length_le (c : S12Params) (S2 : List (Nat × Peak))
    (Si : List (Nat × SiEntry)) :
    (s2_passing c S2 Si).length ≤ S2.length := by
  calc (s2_passing c S2 Si).length
      = ((sortById S2).filter
          (fun q => s2_peak_pass c q.2 (lookupD Si q.1 []))).length := by
        simp [s2_passing]
    _ ≤ (sortById S2).length := List.length_filter_le _ _
    _ = S2.length := length_sortById S2

/-- C1: the Dorothea constructor unconditionally fixes the S1 multiplicity
bounds to [1, 1], and under those bounds any event whose raw S1 peak map
does not hold exactly one peak is rejected by select_event, regardless of
its S2 content. -/
theorem c1_s1_multiplicity_rejection :
    (∀ (dv e1 E1 l1 L1 h1 H1 t1 : ℚ) (n2 : Nat)
       (e2 E2 l2 L2 h2 H2 : ℚ) (nsmin nsmax : Nat) (t2 : ℚ),
       (dorotheaParams dv e1 E1 l1 L1 h1 H1 t1 n2 e2 E2 l2 L2 h2 H2
          nsmin nsmax t2).S1_Nmin = 1 ∧
       (dorotheaParams dv e1 E1 l1 L1 h1 H1 t1 n2 e2 E2 l2 L2 h2 H2
          nsmin nsmax t2).S1_Nmax = 1) ∧
    (∀ c : S12Params, c.S1_Nmin = 1 → c.S1_Nmax = 1 →
       ∀ (n : Nat) (t : ℚ) (S1 S2 : List (Nat × Peak))
         (Si : List (Nat × SiEntry)),
         S1.length ≠ 1 → select_event c n t S1 S2 Si = none) := by
  refine ⟨fun _ _ _ _ _ _ _ _ _ _ _ _ _ _ _ _ _ _ => ⟨rfl, rfl⟩, ?_⟩
  intro c h1min h1max n t S1 S2 Si hlen
  have hm : ¬(c.S1_Nmin ≤ S1.length ∧ S1.length ≤ c.S1_Nmax) := by
    rw [h1min, h1max]; omega
  simp [select_event, s1_filter, hm]

/-- Witness for C1 at a concrete input: an event with an empty raw S1 map
and a passing S2 peak is rejected. -/
theorem c1_s1_multiplicity_rejection_witness :
    ([ ] : List (Nat × Peak)).length ≠ 1 ∧
    select_event cfgA 3 0 [] [(0, pkS2a)] [(0, siA)] = none :=
  ⟨by decide,
   c1_s1_multiplicity_rejection.2 cfgA rfl rfl 3 0 [] [(0, pkS2a)]
     [(0, siA)] (by decide)⟩

/-- C2 fails as stated: with S2_Nmax = 1 and two S2 peaks that both pass the
per-peak check individually, the event is rejected outright (the raw S2
multiplicity bound [1, S2_Nmax] fails), so no accepted event carrying the
lower-id peak's drift value exists. -/
theorem c2_cap_counterexample :
    cfgA.S2_Nmax = 1 ∧
    s2_peak_pass cfgA pkS2a siA = true ∧
    s2_peak_pass cfgA pkS2b siA = true ∧
    select_event cfgA 5 0 [(0, pkS1)] [(0, pkS2a), (1, pkS2b)]
      [(0, siA), (1, siA)] = none :=
  ⟨rfl,
   by
     norm_num [s2_peak_pass, cfgA, dorotheaParams, pkS2a, siA, Peak.energy,
       Peak.width, Peak.height, Peak.nonzeroTimes, nsipm],
   by
     norm_num [s2_peak_pass, cfgA, dorotheaParams, pkS2b, siA, Peak.energy,
       Peak.width, Peak.height, Peak.nonzeroTimes, nsipm],
   by decide⟩

/-- C2 amended: whenever more S2 peaks pass the per-peak check than
S2_Nmax, the event is rejected — the raw S2 peak map is then necessarily
larger than S2_Nmax, so its multiplicity check fails and select_event
returns none; the reducer's cap is never exercised on more survivors than
S2_Nmax. -/
theorem c2_cap_rejection (c : S12Params) (n : Nat) (t : ℚ)
    (S1 S2 : List (Nat × Peak)) (Si : List (Nat × SiEntry))
    (h : c.S2_Nmax < (s2_passing c S2 Si).length) :
    select_event c n t S1 S2 Si = none := by
  have hlen : (s2_passing c S2 Si).length ≤ S2.length :=
    s2_passing_length_le c S2 Si
  have hm : ¬(c.S2_Nmin ≤ S2.length ∧ S2.length ≤ c.S2_Nmax) := by omega
  simp [select_event, s2_filter, hm]

/-- A successful reduction returns the first S2_Nmax passing S2 ids as the
kept ids and one drift value per kept id, computed from the S2 start time,
the chosen S1 reference time and the drift velocity. -/
lemma reduce_spec (c : S12Params) (S1 S2 : List (Nat × Peak))
    (s1p s2p : List Nat) (x : Nat × List Nat × List ℚ)
    (h : reduce c S1 S2 s1p s2p = some x) :
    x.2.2 = x.2.1.map (fun pid =>
      ((lookupD S2 pid (Peak.mk [])).startTime -
       (lookupD S1 x.1 (Peak.mk [])).time) * c.drift_v) ∧
    x.2.1 = s2p.take c.S2_Nmax := by
  obtain ⟨x1, x2, x3⟩ := x
  match s1p with
  | [] => simp [reduce] at h
  | a :: b :: l => simp [reduce] at h
  | [a] =>
    by_cases hs : s2p.isEmpty = true
    · simp [reduce, hs] at h
    · simp only [reduce, if_neg hs, Option.some.injEq, Prod.mk.injEq] at h
      obtain ⟨h1, h2, h3⟩ := h
      subst h1
      subst h2
      subst h3
      exact ⟨rfl, rfl⟩

/-- Witness for the amended C2 at a concrete input: two individually
passing S2 peaks against S2_Nmax = 1 yield rejection. -/
theorem c2_cap_rejection_witness :
    cfgA.S2_Nmax < (s2_passing cfgA [(0, pkS2a), (1, pkS2b)]
      [(0, siA), (1, siA)]).length ∧
    select_event cfgA 5 0 [(0, pkS1)] [(0, pkS2a), (1, pkS2b)]
      [(0, siA), (1, siA)] = none :=
  ⟨by
     norm_num [s2_passing, sortById, insertById, s2_peak_pass, cfgA,
       dorotheaParams, pkS2a, pkS2b, siA, Peak.energy, Peak.width,
       Peak.height, Peak.nonzeroTimes, nsipm, lookupD, List.filter_cons,
       List.filter_nil, decide_eq_true_eq, bne_iff_ne],
   c2_cap_rejection cfgA 5 0 [(0, pkS1)] [(0, pkS2a), (1, pkS2b)]
     [(0, siA), (1, siA)]
     (by
       norm_num [s2_passing, sortById, insertById, s2_peak_pass, cfgA,
         dorotheaParams, pkS2a, pkS2b, siA, Peak.energy, Peak.width,
         Peak.height, Peak.nonzeroTimes, nsipm, lookupD, List.filter_cons,
         List.filter_nil, decide_eq_true_eq, bne_iff_ne])⟩

/-- C3: every accepted event's drift values are exactly one per kept S2
peak (a sequence, not a scalar), each computed as
(S2 peak start time − chosen S1 reference time) · drift_v. -/
theorem c3_drift_values (c : S12Params) (n : Nat) (t : ℚ)
    (S1 S2 : List (Nat × Peak)) (Si : List (Nat × SiEntry))
    (e : AcceptedEvent) (h : select_event c n t S1 S2 Si = some e) :
    e.drifts = e.s2_ids.map (fun pid =>
      ((lookupD S2 pid (Peak.mk [])).startTime -
       (lookupD S1 e.s1_id (Peak.mk [])).time) * c.drift_v) ∧
    e.drifts.length = e.s2_ids.length := by
  unfold select_event at h
  by_cases hc : ((s1_filter c S1).1 && (s2_filter c S2 Si).1) = true
  · rw [if_pos hc] at h
    cases hr : reduce c S1 S2 (s1_filter c S1).2 (s2_filter c S2 Si).2 with
    | none => rw [hr] at h; exact absurd h (by simp)
    | some x =>
      obtain ⟨x1, x2, x3⟩ := x
      rw [hr] at h
      simp only [Option.some.injEq] at h
      subst h
      have hsp : x3 = x2.map (fun pid =>
          ((lookupD S2 pid (Peak.mk [])).startTime -
           (lookupD S1 x1 (Peak.mk [])).time) * c.drift_v) :=
        (reduce_spec c S1 S2 _ _ _ hr).1
      refine ⟨hsp, ?_⟩
      show x3.length = x2.length
      rw [hsp]
      simp
  · rw [if_neg hc] at h
    exact absurd h (by simp)

/-- Witness for C3 at a concrete input: the concrete accepted event has one
kept S2 id and its single drift value follows the formula. -/
theorem c3_drift_values_witness :
    select_event cfgA 1 2 [(0, pkS1)] [(0, pkS2a)] [(0, siA)] =
      some (AcceptedEvent.mk 1 2 0 [0] [10]) ∧
    (AcceptedEvent.mk 1 2 0 [0] [10]).drifts =
      (AcceptedEvent.mk 1 2 0 [0] [10]).s2_ids.map (fun pid =>
        ((lookupD [(0, pkS2a)] pid (Peak.mk [])).startTime -
         (lookupD [(0, pkS1)] (AcceptedEvent.mk 1 2 0 [0] [10]).s1_id
            (Peak.mk [])).time) * cfgA.drift_v) := by
  have hsel : select_event cfgA 1 2 [(0, pkS1)] [(0, pkS2a)] [(0, siA)] =
      some (AcceptedEvent.mk 1 2 0 [0] [10]) := by
    norm_num [select_event, s1_filter, s2_filter, s1_passing, s2_passing,
      sortById, insertById, s1_peak_pass, s2_peak_pass, cfgA, dorotheaParams,
      pkS1, pkS2a, siA, Peak.energy, Peak.width, Peak.height,
      Peak.nonzeroTimes, nsipm, lookupD, List.filter_cons, List.filter_nil,
      decide_eq_true_eq, bne_iff_ne, reduce, Peak.time, Peak.startTime]
  exact ⟨hsel,
    (c3_drift_values cfgA 1 2 [(0, pkS1)] [(0, pkS2a)] [(0, siA)]
      (AcceptedEvent.mk 1 2 0 [0] [10]) hsel).1⟩

/-- C7: the main loop skips a file exactly when its load fails with one of
the two recognized conditions (ValueError, NoSuchNodeError), continuing
with the next file and unchanged counters; any other load failure aborts
the run; a file that loads is processed. -/
theorem c7_file_skip (c : S12Params) (nmax : Int) (fs : List LoadResult)
    (d : FileData) (ni no : Nat) :
    main_loop c nmax (LoadResult.valueError :: fs) ni no =
      main_loop c nmax fs ni no ∧
    main_loop c nmax (LoadResult.noSuchNodeError :: fs) ni no =
      main_loop c nmax fs ni no ∧
    main_loop c nmax (LoadResult.otherError :: fs) ni no =
      Except.error Err.loadError ∧
    main_loop c nmax (LoadResult.ok d :: fs) ni no =
      (if (event_loop c nmax d d.events ni no).2.2.1 then
        Except.ok ((event_loop c nmax d d.events ni no).1,
                   (event_loop c nmax d d.events ni no).2.1)
      else
        main_loop c nmax fs (event_loop c nmax d d.events ni no).1
          (event_loop c nmax d d.events ni no).2.1) :=
  ⟨rfl, rfl, rfl, rfl⟩

/-- Looking up a key absent from an association list returns the default. -/
lemma lookupD_eq_default {α : Type} (m : List (Nat × α)) (k : Nat) (d : α)
    (h : k ∉ keys m) : lookupD m k d = d := by
  induction m with
  | nil => rfl
  | cons q qs ih =>
    simp only [keys, List.map_cons, List.mem_cons] at h
    push_neg at h
    show (if q.1 = k then q.2 else lookupD qs k d) = d
    rw [if_neg (fun he => h.1 he.symm)]
    exact ih h.2

/-- C8: an event number missing from the S1, S2 or S2Si mapping is
processed with an empty map substituted for the missing class; the selector
is still called (the step is a total function, no error is raised). -/
theorem c8_missing_event_maps (c : S12Params) (m : FileData) (n : Nat)
    (t : ℚ) :
    (n ∉ keys m.S1s →
      event_step c m n t =
        select_event c n t [] (lookupD m.S2s n []) (lookupD m.S2Sis n [])) ∧
    (n ∉ keys m.S2s →
      event_step c m n t =
        select_event c n t (lookupD m.S1s n []) [] (lookupD m.S2Sis n [])) ∧
    (n ∉ keys m.S2Sis →
      event_step c m n t =
        select_event c n t (lookupD m.S1s n []) (lookupD m.S2s n []) []) ∧
    (n ∉ keys m.S1s → n ∉ keys m.S2s → n ∉ keys m.S2Sis →
      event_step c m n t = select_event c n t [] [] []) := by
  refine ⟨fun h1 => ?_, fun h2 => ?_, fun h3 => ?_, fun h1 h2 h3 => ?_⟩
  · simp only [event_step]
    rw [lookupD_eq_default _ _ _ h1]
  · simp only [event_step]
    rw [lookupD_eq_default _ _ _ h2]
  · simp only [event_step]
    rw [lookupD_eq_default _ _ _ h3]
  · simp only [event_step]
    rw [lookupD_eq_default _ _ _ h1, lookupD_eq_default _ _ _ h2,
      lookupD_eq_default _ _ _ h3]

/-- Witness for C8 at a concrete input: event number 3 is absent from all
three mappings of the concrete file, and its step equals the selector on
empty maps. -/
theorem c8_missing_event_maps_witness :
    (3 ∉ keys fdA.S1s ∧ 3 ∉ keys fdA.S2s ∧ 3 ∉ keys fdA.S2Sis) ∧
    event_step cfgA fdA 3 0 = select_event cfgA 3 0 [] [] [] :=
  ⟨⟨by decide, by decide, by decide⟩,
   (c8_missing_event_maps cfgA fdA 3 0).2.2.2 (by decide) (by decide)
     (by decide)⟩

/-- The event loop can only move the counters forward, and it adds at most
one output per added input. -/
lemma event_loop_counters (c : S12Params) (nmax : Int) (m : FileData)
    (evts : List (Nat × ℚ)) : ∀ ni no : Nat,
    ni ≤ (event_loop c nmax m evts ni no).1 ∧
    no ≤ (event_loop c nmax m evts ni no).2.1 ∧
    (event_loop c nmax m evts ni no).2.1 + ni ≤
      (event_loop c nmax m evts ni no).1 + no := by
  induction evts with
  | nil =>
    intro ni no
    simp only [event_loop]
    omega
  | cons p rest ih =>
    intro ni no
    obtain ⟨n, t⟩ := p
    simp only [event_loop]
    cases hq : (event_step c m n t).isSome
    · by_cases hmr : max_events_reached nmax (ni + 1) = true
      · simp [hq, hmr]
        all_goals omega
      · have := ih (ni + 1) no
        simp [hq, hmr]
        all_goals omega
    · by_cases hmr : max_events_reached nmax (ni + 1) = true
      · simp [hq, hmr]
        all_goals omega
      · have := ih (ni + 1) (no + 1)
        simp [hq, hmr]
        all_goals omega

/-- A run of the main loop can only move the counters forward, and it adds
at most one output per added input. -/
lemma main_loop_counters (c : S12Params) (nmax : Int)
    (files : List LoadResult) : ∀ ni no i o : Nat,
    main_loop c nmax files ni no = Except.ok (i, o) →
    ni ≤ i ∧ no ≤ o ∧ o + ni ≤ i + no := by
  induction files with
  | nil =>
    intro ni no i o h
    simp only [main_loop, Except.ok.injEq, Prod.mk.injEq] at h
    omega
  | cons f fs ih =>
    intro ni no i o h
    cases f with
    | valueError => exact ih ni no i o h
    | noSuchNodeError => exact ih ni no i o h
    | otherError => simp [main_loop] at h
    | ok d =>
      simp only [main_loop] at h
      have hel := event_loop_counters c nmax d d.events ni no
      by_cases hb : (event_loop c nmax d d.events ni no).2.2.1 = true
      · rw [if_pos hb] at h
        simp only [Except.ok.injEq, Prod.mk.injEq] at h
        omega
      · rw [if_neg hb] at h
        have := ih (event_loop c nmax d d.events ni no).1
          (event_loop c nmax d d.events ni no).2.1 i o h
        omega

/-- C5: throughout a run the counters satisfy 0 ≤ nevt_out ≤ nevt_in — a
main loop started at counters with nevt_out ≤ nevt_in (in particular at
(0, 0), as Dorothea.run starts it) finishes with nevt_out ≤ nevt_in, and
each counter is monotone over the run. -/
theorem c5_counter_invariant (c : S12Params) (nmax : Int)
    (files : List LoadResult) (ni no i o : Nat) (hstart : no ≤ ni)
    (h : main_loop c nmax files ni no = Except.ok (i, o)) :
    no ≤ o ∧ ni ≤ i ∧ o ≤ i := by
  have := main_loop_counters c nmax files ni no i o h
  omega

/-- Witness for C5 at a concrete input: a one-file run from (0, 0) that
accepts its single event ends with nevt_out = nevt_in = 1. -/
theorem c5_counter_invariant_witness :
    main_loop cfgA (-1) [LoadResult.ok fdA] 0 0 = Except.ok (1, 1) ∧
    (0 ≤ 1 ∧ 0 ≤ 1 ∧ 1 ≤ 1) := by
  have hml : main_loop cfgA (-1) [LoadResult.ok fdA] 0 0 =
      Except.ok (1, 1) := by
    norm_num [main_loop, event_loop, event_step, max_events_reached, fdA,
      select_event, s1_filter, s2_filter, s1_passing, s2_passing, sortById,
      insertById, s1_peak_pass, s2_peak_pass, cfgA, dorotheaParams, pkS1,
      pkS2a, siA, Peak.energy, Peak.width, Peak.height, Peak.nonzeroTimes,
      nsipm, lookupD, List.filter_cons, List.filter_nil, decide_eq_true_eq,
      bne_iff_ne, reduce, Peak.time, Peak.startTime]
  exact ⟨hml,
    c5_counter_invariant cfgA (-1) [LoadResult.ok fdA] 0 0 1 1
      (by decide) hml⟩

/-- Entered below the cap, the event loop consumes events until either the
list ends or the input counter first reaches the cap; the returned counter
and max-reached flag are determined by the cap and the number of events. -/
lemma event_loop_count (c : S12Params) (nmax : Int) (m : FileData)
    (evts : List (Nat × ℚ)) : ∀ ni no : Nat, (0 ≤ nmax → (ni : Int) < nmax) →
    ((event_loop c nmax m evts ni no).1 =
      if 0 ≤ nmax ∧ nmax ≤ (ni : Int) + evts.length then nmax.toNat
      else ni + evts.length) ∧
    ((event_loop c nmax m evts ni no).2.2.1 =
      decide (0 ≤ nmax ∧ nmax ≤ (ni : Int) + evts.length)) := by
  induction evts with
  | nil =>
    intro ni no hpre
    have hc : ¬(0 ≤ nmax ∧ nmax ≤ (ni : Int)) := by
      intro h
      have := hpre h.1
      omega
    simp [event_loop, hc]
  | cons p rest ih =>
    intro ni no hpre
    obtain ⟨n, t⟩ := p
    simp only [event_loop]
    by_cases hmr : max_events_reached nmax (ni + 1) = true
    · have h1 : 0 ≤ nmax ∧ nmax ≤ (ni : Int) + 1 := by
        have := hmr
        simp only [max_events_reached, Bool.and_eq_true, decide_eq_true_eq] at this
        exact ⟨this.1, by push_cast at this ⊢; omega⟩
      have hlt := hpre h1.1
      have hc : 0 ≤ nmax ∧ nmax ≤ (ni : Int) + ((n, t) :: rest).length := by
        simp only [List.length_cons]
        push_cast
        omega
      rw [if_pos hmr]
      constructor
      · show ni + 1 = _
        rw [if_pos hc]
        omega
      · show true = _
        rw [eq_comm, decide_eq_true_eq]
        exact hc
    · have h1 : ¬(0 ≤ nmax ∧ nmax ≤ (ni : Int) + 1) := by
        intro hcon
        apply hmr
        simp only [max_events_reached, Bool.and_eq_true, decide_eq_true_eq]
        exact ⟨hcon.1, by push_cast; omega⟩
      have hpre' : 0 ≤ nmax → ((ni + 1 : Nat) : Int) < nmax := by
        intro h0
        push_cast
        omega
      rw [if_neg hmr]
      obtain ⟨ha, hb⟩ :=
        ih (ni + 1) (if (event_step c m n t).isSome then no + 1 else no) hpre'
      constructor
      · show (event_loop c nmax m rest (ni + 1)
            (if (event_step c m n t).isSome then no + 1 else no)).1 = _
        rw [ha]
        simp only [List.length_cons]
        push_cast
        split_ifs <;> omega
      · show (event_loop c nmax m rest (ni + 1)
            (if (event_step c m n t).isSome then no + 1 else no)).2.2.1 = _
        rw [hb]
        simp only [List.length_cons, decide_eq_decide]
        push_cast
        constructor <;> (intro h; exact ⟨h.1, by omega⟩)

/-- The events of a file list decompose head/tail. -/
lemma totalEvents_cons (f : LoadResult) (fs : List LoadResult) :
    totalEvents (f :: fs) = fileEvents f + totalEvents fs := by
  simp [totalEvents]

/-- Entered below the cap on a fatal-error-free file list, the main loop
completes and its final input counter is determined by the cap and the
total number of available events. -/
lemma main_loop_count (c : S12Params) (nmax : Int) (files : List LoadResult) :
    ∀ ni no : Nat, (0 ≤ nmax → (ni : Int) < nmax) → noFatal files = true →
    ∃ o : Nat, main_loop c nmax files ni no =
      Except.ok (if 0 ≤ nmax ∧ nmax ≤ (ni : Int) + totalEvents files then
        nmax.toNat else ni + totalEvents files, o) := by
  induction files with
  | nil =>
    intro ni no hpre _
    refine ⟨no, ?_⟩
    have hc : ¬(0 ≤ nmax ∧ nmax ≤ (ni : Int)) := by
      intro h
      have := hpre h.1
      omega
    simp [main_loop, totalEvents, hc]
  | cons f fs ih =>
    intro ni no hpre hnf
    have hnf' : noFatal fs = true := by
      simp only [noFatal, List.all_cons, Bool.and_eq_true] at hnf
      exact hnf.2
    cases f with
    | valueError =>
      obtain ⟨o, ho⟩ := ih ni no hpre hnf'
      exact ⟨o, by simpa [main_loop, totalEvents, fileEvents] using ho⟩
    | noSuchNodeError =>
      obtain ⟨o, ho⟩ := ih ni no hpre hnf'
      exact ⟨o, by simpa [main_loop, totalEvents, fileEvents] using ho⟩
    | otherError => simp [noFatal] at hnf
    | ok d =>
      obtain ⟨ha, hb⟩ := event_loop_count c nmax d d.events ni no hpre
      by_cases hr : (event_loop c nmax d d.events ni no).2.2.1 = true
      · have hcond : 0 ≤ nmax ∧ nmax ≤ (ni : Int) + d.events.length := by
          rw [hb, decide_eq_true_eq] at hr
          exact hr
        have htot : 0 ≤ nmax ∧
            nmax ≤ (ni : Int) + totalEvents (LoadResult.ok d :: fs) := by
          refine ⟨hcond.1, ?_⟩
          rw [totalEvents_cons]
          have hfe : fileEvents (LoadResult.ok d) = d.events.length := rfl
          rw [hfe]
          push_cast
          have := hcond.2
          omega
        refine ⟨(event_loop c nmax d d.events ni no).2.1, ?_⟩
        simp only [main_loop]
        rw [if_pos hr, if_pos htot, ha, if_pos hcond]
      · have hncond : ¬(0 ≤ nmax ∧ nmax ≤ (ni : Int) + d.events.length) := by
          rw [hb, decide_eq_true_eq] at hr
          exact hr
        have hr1 : (event_loop c nmax d d.events ni no).1 =
            ni + d.events.length := by
          rw [ha, if_neg hncond]
        have hpre' : 0 ≤ nmax →
            (((event_loop c nmax d d.events ni no).1 : Nat) : Int) < nmax := by
          intro h0
          rw [hr1]
          push_cast
          omega
        obtain ⟨o, ho⟩ := ih (event_loop c nmax d d.events ni no).1
          (event_loop c nmax d d.events ni no).2.1 hpre' hnf'
        refine ⟨o, ?_⟩
        simp only [main_loop]
        rw [if_neg hr, ho, hr1]
        have hXY : (if 0 ≤ nmax ∧
              nmax ≤ ((ni + d.events.length : Nat) : Int) + totalEvents fs then
              nmax.toNat else (ni + d.events.length) + totalEvents fs) =
            (if 0 ≤ nmax ∧
              nmax ≤ (ni : Int) + totalEvents (LoadResult.ok d :: fs) then
              nmax.toNat
             else ni + totalEvents (LoadResult.ok d :: fs)) := by
          rw [totalEvents_cons]
          have hfe : fileEvents (LoadResult.ok d) = d.events.length := rfl
          rw [hfe]
          push_cast
          split_ifs <;> omega
        rw [hXY]

/-- C4 is corrected to caps nmax ≥ 1: a fatal-error-free run that completes
counts exactly min(nmax, total available events) input events when
1 ≤ nmax, and all available events when nmax < 0 (unbounded); nmax = 0 is
excluded — the cap is only checked after an event has been consumed, so a
zero cap still consumes the first available event. -/
theorem c4_event_cap (c : S12Params) (nmax : Int) (files : List LoadResult)
    (i o : Nat) (hnf : noFatal files = true)
    (h : main_loop c nmax files 0 0 = Except.ok (i, o)) :
    (1 ≤ nmax → i = min nmax.toNat (totalEvents files)) ∧
    (nmax < 0 → i = totalEvents files) := by
  constructor
  · intro h1
    obtain ⟨o', ho⟩ := main_loop_count c nmax files 0 0
      (fun _ => by omega) hnf
    rw [ho] at h
    simp only [Except.ok.injEq, Prod.mk.injEq] at h
    obtain ⟨hi, -⟩ := h
    subst hi
    split_ifs with hcnd
    · have := hcnd.2
      push_cast at this
      omega
    · push_cast at hcnd
      omega
  · intro hneg
    obtain ⟨o', ho⟩ := main_loop_count c nmax files 0 0
      (fun h0 => absurd h0 (by omega)) hnf
    rw [ho] at h
    rw [if_neg (fun hcon => absurd hcon.1 (by omega))] at h
    simp only [Except.ok.injEq, Prod.mk.injEq] at h
    omega

/-- C4 fails as stated at nmax = 0: the cap is checked only after an event
has been processed, so a run with nmax = 0 over a one-event file consumes
one input event, not min(0, 1) = 0. -/
theorem c4_cap_counterexample :
    main_loop cfgA 0 [LoadResult.ok fdA] 0 0 = Except.ok (1, 1) ∧
    totalEvents [LoadResult.ok fdA] = 1 ∧
    (1 : Nat) ≠ min ((0 : Int).toNat) (totalEvents [LoadResult.ok fdA]) := by
  refine ⟨?_, rfl, by decide⟩
  norm_num [main_loop, event_loop, event_step, max_events_reached, fdA,
    select_event, s1_filter, s2_filter, s1_passing, s2_passing, sortById,
    insertById, s1_peak_pass, s2_peak_pass, cfgA, dorotheaParams, pkS1,
    pkS2a, siA, Peak.energy, Peak.width, Peak.height, Peak.nonzeroTimes,
    nsipm, lookupD, List.filter_cons, List.filter_nil, decide_eq_true_eq,
    bne_iff_ne, reduce, Peak.time, Peak.startTime]

/-- Witness for the amended C4 at a concrete input: with nmax = 1 and two
one-event files, exactly min(1, 2) = 1 input event is counted and the
second file contributes nothing. -/
theorem c4_event_cap_witness :
    noFatal [LoadResult.ok fdA, LoadResult.ok fdA] = true ∧
    main_loop cfgA 1 [LoadResult.ok fdA, LoadResult.ok fdA] 0 0 =
      Except.ok (1, 1) ∧
    (1 : Nat) =
      min ((1 : Int).toNat) (totalEvents [LoadResult.ok fdA, LoadResult.ok fdA]) := by
  have hml : main_loop cfgA 1 [LoadResult.ok fdA, LoadResult.ok fdA] 0 0 =
      Except.ok (1, 1) := by
    norm_num [main_loop, event_loop, event_step, max_events_reached, fdA,
      select_event, s1_filter, s2_filter, s1_passing, s2_passing, sortById,
      insertById, s1_peak_pass, s2_peak_pass, cfgA, dorotheaParams, pkS1,
      pkS2a, siA, Peak.energy, Peak.width, Peak.height, Peak.nonzeroTimes,
      nsipm, lookupD, List.filter_cons, List.filter_nil, decide_eq_true_eq,
      bne_iff_ne, reduce, Peak.time, Peak.startTime]
  exact ⟨by decide, hml,
    (c4_event_cap cfgA 1 [LoadResult.ok fdA, LoadResult.ok fdA] 1 1
      (by decide) hml).1 (by decide)⟩

/-- C6 fails as stated (the code lacks the guard the claim asserts): the
run summary divides nevt_out by nevt_in unconditionally, so a run that
consumed zero input events — here a run over no files — hits
ZeroDivisionError at the summary instead of completing with a guarded
ratio. -/
theorem c6_ratio_unguarded :
    run cfgA (-1) [] = Except.error Err.zeroDivisionError := by
  simp [run, main_loop, pydiv]

/-- C9: the per-peak acceptance bounds are inclusive — a peak whose energy
equals Emax exactly is accepted when every other quantity is in range,
while exceeding Emax by any positive amount (or exceeding the width,
height or sensor-count upper bound) rejects the peak; stated for the S2
check (all four quantities) and for the S1 energy bound. -/
theorem c9_inclusive_bounds (c : S12Params) (p : Peak) (si : SiEntry) :
    (p.energy c.S2_Ethr = c.S2_Emax → c.S2_Emin ≤ c.S2_Emax →
     c.S2_Lmin ≤ p.width → p.width ≤ c.S2_Lmax →
     c.S2_Hmin ≤ p.height → p.height ≤ c.S2_Hmax →
     c.S2_NSIPMmin ≤ nsipm si → nsipm si ≤ c.S2_NSIPMmax →
     s2_peak_pass c p si = true) ∧
    (∀ eps : ℚ, 0 < eps → p.energy c.S2_Ethr = c.S2_Emax + eps →
     s2_peak_pass c p si = false) ∧
    (c.S2_Lmax < p.width → s2_peak_pass c p si = false) ∧
    (c.S2_Hmax < p.height → s2_peak_pass c p si = false) ∧
    (c.S2_NSIPMmax < nsipm si → s2_peak_pass c p si = false) ∧
    (p.energy c.S1_Ethr = c.S1_Emax → c.S1_Emin ≤ c.S1_Emax →
     c.S1_Lmin ≤ p.width → p.width ≤ c.S1_Lmax →
     c.S1_Hmin ≤ p.height → p.height ≤ c.S1_Hmax →
     s1_peak_pass c p = true) ∧
    (∀ eps : ℚ, 0 < eps → p.energy c.S1_Ethr = c.S1_Emax + eps →
     s1_peak_pass c p = false) := by
  refine ⟨?_, ?_, ?_, ?_, ?_, ?_, ?_⟩
  · intro he hee hw1 hw2 hh1 hh2 hn1 hn2
    rw [s2_peak_pass, decide_eq_true_eq]
    exact ⟨he ▸ hee, le_of_eq he, hw1, hw2, hh1, hh2, hn1, hn2⟩
  · intro eps heps he
    rw [s2_peak_pass, decide_eq_false_iff_not]
    intro hall
    have := hall.2.1
    rw [he] at this
    linarith
  · intro hw
    rw [s2_peak_pass, decide_eq_false_iff_not]
    intro hall
    have := hall.2.2.2.1
    linarith
  · intro hh
    rw [s2_peak_pass, decide_eq_false_iff_not]
    intro hall
    have := hall.2.2.2.2.2.1
    linarith
  · intro hn
    rw [s2_peak_pass, decide_eq_false_iff_not]
    intro hall
    have := hall.2.2.2.2.2.2.2
    omega
  · intro he hee hw1 hw2 hh1 hh2
    rw [s1_peak_pass, decide_eq_true_eq]
    exact ⟨he ▸ hee, le_of_eq he, hw1, hw2, hh1, hh2⟩
  · intro eps heps he
    rw [s1_peak_pass, decide_eq_false_iff_not]
    intro hall
    have := hall.2.1
    rw [he] at this
    linarith

/-- A second concrete configuration whose S2 energy upper bound sits
exactly at the first S2 peak's energy. -/
def cfgB : S12Params :=
  dorotheaParams 1 0 100 0 100 0 100 0 1 0 2 0 100 0 100 1 10 0

/-- Witness for C9 at concrete inputs: a peak with energy exactly Emax is
accepted, a peak with energy Emax + 1 is rejected. -/
theorem c9_inclusive_bounds_witness :
    pkS2a.energy cfgB.S2_Ethr = cfgB.S2_Emax ∧
    pkS2b.energy cfgB.S2_Ethr = cfgB.S2_Emax + 1 ∧
    s2_peak_pass cfgB pkS2a siA = true ∧
    s2_peak_pass cfgB pkS2b siA = false := by
  have h1 : pkS2a.energy cfgB.S2_Ethr = cfgB.S2_Emax := by
    norm_num [Peak.energy, pkS2a, cfgB, dorotheaParams]
  have h2 : pkS2b.energy cfgB.S2_Ethr = cfgB.S2_Emax + 1 := by
    norm_num [Peak.energy, pkS2b, cfgB, dorotheaParams]
  refine ⟨h1, h2, ?_, ?_⟩
  · exact (c9_inclusive_bounds cfgB pkS2a siA).1 h1
      (by norm_num [cfgB, dorotheaParams])
      (by norm_num [Peak.width, Peak.nonzeroTimes, pkS2a, cfgB,
        dorotheaParams, List.filter_cons, List.filter_nil, bne_iff_ne])
      (by norm_num [Peak.width, Peak.nonzeroTimes, pkS2a, cfgB,
        dorotheaParams, List.filter_cons, List.filter_nil, bne_iff_ne])
      (by norm_num [Peak.height, pkS2a, cfgB, dorotheaParams])
      (by norm_num [Peak.height, pkS2a, cfgB, dorotheaParams])
      (by norm_num [nsipm, siA, cfgB, dorotheaParams, List.filter_cons,
        List.filter_nil, bne_iff_ne])
      (by norm_num [nsipm, siA, cfgB, dorotheaParams, List.filter_cons,
        List.filter_nil, bne_iff_ne])
  · exact (c9_inclusive_bounds cfgB pkS2b siA).2.1 1 (by norm_num) h2

/-- C10: the driver completes its summaries only when nevt_in > 0 — for a
run whose main loop succeeds with counters (i, o), the DOROTHEA driver
finishes normally with ratio o/i and time-per-event dt/i when 0 < i, and
aborts with ZeroDivisionError when i = 0. -/
theorem c10_driver_summary (c : S12Params) (nmax : Int)
    (files : List LoadResult) (dt : ℚ) (i o : Nat)
    (h : main_loop c nmax files 0 0 = Except.ok (i, o)) :
    (0 < i → DOROTHEA c nmax files dt =
      Except.ok (⟨i, o, (o : ℚ) / (i : ℚ)⟩, dt / (i : ℚ))) ∧
    (i = 0 → DOROTHEA c nmax files dt =
      Except.error Err.zeroDivisionError) := by
  constructor
  · intro hi
    have hne : ((i : ℚ)) ≠ 0 := by
      have h0 : (0 : ℚ) < (i : ℚ) := by exact_mod_cast hi
      exact (ne_of_lt h0).symm
    simp [DOROTHEA, run, h, pydiv, hne]
  · intro hz
    subst hz
    simp [DOROTHEA, run, h, pydiv]

/-- Witness for C10 at a concrete input: a one-file run with one accepted
event completes the driver normally with time-per-event dt/1. -/
theorem c10_driver_summary_witness :
    main_loop cfgA (-1) [LoadResult.ok fdA] 0 0 = Except.ok (1, 1) ∧
    (0 : Nat) < 1 ∧
    DOROTHEA cfgA (-1) [LoadResult.ok fdA] 5 =
      Except.ok (⟨1, 1, ((1 : Nat) : ℚ) / ((1 : Nat) : ℚ)⟩,
        5 / ((1 : Nat) : ℚ)) := by
  have hml : main_loop cfgA (-1) [LoadResult.ok fdA] 0 0 =
      Except.ok (1, 1) := by
    norm_num [main_loop, event_loop, event_step, max_events_reached, fdA,
      select_event, s1_filter, s2_filter, s1_passing, s2_passing, sortById,
      insertById, s1_peak_pass, s2_peak_pass, cfgA, dorotheaParams, pkS1,
      pkS2a, siA, Peak.energy, Peak.width, Peak.height, Peak.nonzeroTimes,
      nsipm, lookupD, List.filter_cons, List.filter_nil, decide_eq_true_eq,
      bne_iff_ne, reduce, Peak.time, Peak.startTime]
  exact ⟨hml, by decide,
    (c10_driver_summary cfgA (-1) [LoadResult.ok fdA] 5 1 1 hml).1
      (by decide)⟩

end Dorothea
